import Mathlib

/-!
Verification of the microstack workflow state machine and comparison engine.

The embedding follows the repository sources:
- `src/atomic_materials/agents/microscopy_router.py` (check_microscopy, route_microscopy)
- `src/atomic_materials/agents/workflow.py` (parse_query_node, pipeline wiring)
- `src/microstack/agents/structure_generator.py` (generate_structure, relax_structure)
- `materials_project.py` (reference data tables and lookup)

The `WorkflowState` record class (`agents/state.py`), the `ParsedQuery` model
(`llm/models.py`) and the comparison module (`comparison.py`) are not present in
the source tree; they are modelled from the spec, as marked on each definition.
-/

/-- Python truthiness of an optional string: `None` and the empty string are falsy. -/
def optStrTruthy : Option String → Bool
  | none => false
  | some s => !s.isEmpty

/-- Modelled from the spec: Miller indices reach the agents as a tuple/list, a
string, or `None` (`_format_miller_indices` in structure_generator.py handles
all three shapes). -/
inductive MillerIndices where
  | nothing
  | ofString (s : String)
  | ofList (l : List Int)
deriving DecidableEq

/-- Modelled from the spec: the parsed request (`ParsedQuery` in
`microstack/llm/models.py`, absent from the tree) with the fields the stage
functions read: task type, element/formula, target face, requested microscopy
type, relax flag, SciLink switch. -/
structure ParsedQuery where
  task_type : String := ""
  material_formula : Option String := none
  surface_miller_indices : MillerIndices := .nothing
  microscopy_type : Option String := none
  relax : Bool := true
  use_scilink : Bool := false
deriving DecidableEq

/-- An atomic structure as the core consumes it: chemical formula plus the
list of atomic positions (x, y, z), coordinates as exact rationals. -/
structure Atoms where
  formula : String := ""
  positions : List (ℚ × ℚ × ℚ) := []
deriving DecidableEq

/-- The `structure_info` dictionary filled by `generate_structure`. -/
structure StructureInfo where
  element : String
  face : String
  formula : String
  num_atoms : ℕ
deriving DecidableEq

/-- The `relaxation_results` dictionary filled by `relax_structure`. -/
structure RelaxResults where
  initial_energy : ℚ
  final_energy : ℚ
  energy_change : ℚ
deriving DecidableEq

/-- Modelled from the spec: the `WorkflowState` aggregate (`agents/state.py`,
absent from the tree). Fields and their defaults are reconstructed from the
spec's data model (§3) and from every read/write the stage functions perform.
`errors` and `warnings` are append-only lists; `file_paths` is a string
dictionary. -/
structure WorkflowState where
  session_id : String
  query : String
  parsed_params : Option ParsedQuery := none
  workflow_stage : String := "init"
  atoms_object : Option Atoms := none
  atoms_relaxed : Option Atoms := none
  structure_uuid : Option String := none
  structure_info : Option StructureInfo := none
  relaxation_results : Option RelaxResults := none
  microscopy_requested : Bool := false
  microscopy_type : Option String := none
  interactive_pause : Bool := false
  errors : List String := []
  warnings : List String := []
  file_paths : List (String × String) := []
deriving DecidableEq

/-- Modelled from the spec: `WorkflowState.add_error` appends one message to the
append-only `errors` list. -/
def WorkflowState.add_error (s : WorkflowState) (e : String) : WorkflowState :=
  { s with errors := s.errors ++ [e] }

/-- Assignment `d[k] = v` on a string-keyed dictionary kept as an
association list. -/
def dictSet (d : List (String × String)) (k v : String) : List (String × String) :=
  if (d.find? (fun kv => kv.1 == k)).isSome then
    d.map (fun kv => if kv.1 == k then (k, v) else kv)
  else d ++ [(k, v)]

/-- Lookup `d.get(k)` on a string-keyed dictionary. -/
def dictGet (d : List (String × String)) (k : String) : Option String :=
  (d.find? (fun kv => kv.1 == k)).map Prod.snd

/-- Embeds `check_microscopy` (microscopy_router.py lines 9-35): if the parsed
request named a microscopy technique (Python truthiness on
`parsed_params and parsed_params.microscopy_type`), set
`microscopy_requested`, record the technique, disable the interactive pause;
otherwise request no microscopy and set the interactive pause. -/
def check_microscopy (s : WorkflowState) : WorkflowState :=
  match s.parsed_params with
  | some p =>
    if optStrTruthy p.microscopy_type then
      { s with microscopy_requested := true,
               microscopy_type := p.microscopy_type,
               interactive_pause := false }
    else
      { s with microscopy_requested := false, interactive_pause := true }
  | none => { s with microscopy_requested := false, interactive_pause := true }

/-- Embeds `route_microscopy` (microscopy_router.py lines 38-64): a pure
function from the routing flags to the name of the next node; anything but the
three known techniques falls through to the terminal sentinel `"end"`. -/
def route_microscopy (s : WorkflowState) : String :=
  if !s.microscopy_requested then "end"
  else if s.microscopy_type = some "STM" then "stm_agent"
  else if s.microscopy_type = some "AFM" then "afm_agent"
  else if s.microscopy_type = some "IETS" then "iets_agent"
  else "end"

/-- The condition `parsed_params and parsed_params.microscopy_type` that
`check_microscopy` branches on. -/
def microscopyNamed (s : WorkflowState) : Bool :=
  match s.parsed_params with
  | some p => optStrTruthy p.microscopy_type
  | none => false

/-- C5: for every state, `check_microscopy` sets exactly one of two flag
configurations: when the parsed request names a microscopy technique it sets
`microscopy_requested = true`, records that technique in `microscopy_type` and
sets `interactive_pause = false`; otherwise (no technique named, or no parsed
parameters) it sets `microscopy_requested = false` and
`interactive_pause = true`. -/
theorem C5_check_microscopy_flags (s : WorkflowState) :
    (microscopyNamed s = true →
      (check_microscopy s).microscopy_requested = true ∧
      (check_microscopy s).microscopy_type = s.parsed_params.bind ParsedQuery.microscopy_type ∧
      (check_microscopy s).interactive_pause = false) ∧
    (microscopyNamed s = false →
      (check_microscopy s).microscopy_requested = false ∧
      (check_microscopy s).interactive_pause = true) := by
  unfold microscopyNamed check_microscopy
  cases hp : s.parsed_params with
  | none => simp
  | some p =>
    by_cases ht : optStrTruthy p.microscopy_type <;> simp [ht]

/-- Concrete instances of C5: a request naming STM proceeds automatically, a
request naming nothing pauses. -/
theorem C5_check_microscopy_flags_witness :
    ((check_microscopy { session_id := "s", query := "q",
                         parsed_params := some { microscopy_type := some "STM" } }).microscopy_requested = true ∧
     (check_microscopy { session_id := "s", query := "q",
                         parsed_params := some { microscopy_type := some "STM" } }).microscopy_type =
          (some { microscopy_type := some "STM" } : Option ParsedQuery).bind ParsedQuery.microscopy_type ∧
     (check_microscopy { session_id := "s", query := "q",
                         parsed_params := some { microscopy_type := some "STM" } }).interactive_pause = false) ∧
    ((check_microscopy { session_id := "s", query := "q" }).microscopy_requested = false ∧
     (check_microscopy { session_id := "s", query := "q" }).interactive_pause = true) := by
  refine ⟨(C5_check_microscopy_flags _).1 (by decide), (C5_check_microscopy_flags _).2 (by decide)⟩

/-- C3 counterexample: with the unknown microscopy type "XYZ" requested, the
router does return the terminal sentinel `"end"` and cannot raise, but no
warning is appended to the state's `warnings` list: `route_microscopy` is a
pure function into the node name (it returns no state), the warning goes only
to the logger, and the state it was given still has an empty `warnings` list. -/
theorem C3_counterexample :
    route_microscopy (check_microscopy { session_id := "s", query := "find XYZ image",
                                         parsed_params := some { microscopy_type := some "XYZ" } }) = "end" ∧
    (check_microscopy { session_id := "s", query := "find XYZ image",
                        parsed_params := some { microscopy_type := some "XYZ" } }).warnings = [] := by
  constructor <;> rfl

/-- C3 amended: for every state whose `microscopy_type` is none of the known
techniques (STM, AFM, IETS), `route_microscopy` returns the terminal sentinel
`"end"` and never raises (it is a total pure function); the unknown-type
warning is only logged — the state, and in particular its `warnings` list, is
not modified by routing. -/
theorem C3_unknown_routes_to_end (s : WorkflowState)
    (h : ∀ k, k ∈ ["STM", "AFM", "IETS"] → s.microscopy_type ≠ some k) :
    route_microscopy s = "end" := by
  have hstm := h "STM" (by simp)
  have hafm := h "AFM" (by simp)
  have hiets := h "IETS" (by simp)
  unfold route_microscopy
  cases s.microscopy_requested
  · rfl
  · simp only [Bool.not_true, if_neg]
    simp [hstm, hafm, hiets]

/-- Concrete instance of C3 amended: microscopy type "XYZ" routes to "end". -/
theorem C3_unknown_routes_to_end_witness :
    route_microscopy { session_id := "s", query := "q",
                       microscopy_requested := true, microscopy_type := some "XYZ" } = "end" :=
  C3_unknown_routes_to_end _ (by decide)

/-- Lookup in a string-keyed literature table. -/
def tblGet {α : Type} (d : List (String × α)) (k : String) : Option α :=
  (d.find? (fun kv => kv.1 == k)).map Prod.snd

/-- One curated metal-surface reference record of `SURFACE_REFERENCE_DATA`
(materials_project.py): interlayer-spacing changes in percent, surface energy,
provenance and method. -/
structure SurfaceRef where
  d12_change : ℚ
  d23_change : ℚ
  d34_change : ℚ
  surface_energy : ℚ
  source : String
  method : String
deriving DecidableEq

/-- One curated 2D-material reference record of `REFERENCE_2D_DATA`
(materials_project.py): a schema of named numeric fields (bond length, layer
thickness, ...) plus provenance and method. -/
structure Ref2D where
  fields : List (String × ℚ)
  source : String
  method : String
deriving DecidableEq

/-- Embeds `SURFACE_REFERENCE_DATA` (materials_project.py lines 19-136). -/
def SURFACE_REFERENCE_DATA : List (String × List (String × SurfaceRef)) :=
  [("Cu",
    [("100", ⟨-2.1, 0.8, 0.0, 1.79, "Lindgren et al., Phys. Rev. B 29, 576 (1984)", "LEED"⟩),
     ("111", ⟨-0.7, 0.2, 0.0, 1.52, "Davis & Noonan, Surf. Sci. 126, 245 (1983)", "LEED"⟩),
     ("110", ⟨-8.5, 2.3, -0.5, 1.93, "Adams et al., Surf. Sci. 187, 313 (1987)", "LEED"⟩)]),
   ("Pt",
    [("111", ⟨1.0, 0.5, 0.0, 2.30, "Materer et al., Surf. Sci. 325, 207 (1995)", "LEED"⟩),
     ("100", ⟨-1.1, 0.6, 0.0, 2.47, "Heilmann et al., Surf. Sci. 83, 487 (1979)", "LEED"⟩)]),
   ("Au",
    [("111", ⟨0.1, 0.3, 0.0, 1.50, "Harten et al., Phys. Rev. Lett. 54, 2619 (1985)", "LEED"⟩),
     ("100", ⟨-1.2, 0.8, 0.0, 1.63, "Gibbs et al., Phys. Rev. Lett. 67, 3117 (1991)", "X-ray"⟩)]),
   ("Ag",
    [("111", ⟨-0.5, 0.2, 0.0, 1.25, "Soares et al., Phys. Rev. B 60, 10768 (1999)", "LEED"⟩),
     ("100", ⟨-1.8, 0.9, 0.0, 1.35, "Quinn et al., J. Phys. C 21, L195 (1988)", "LEED"⟩)]),
   ("Ni",
    [("100", ⟨-3.2, 1.5, -0.3, 2.38, "Demuth et al., Phys. Rev. Lett. 34, 1149 (1975)", "LEED"⟩),
     ("111", ⟨-1.2, 0.5, 0.0, 2.01, "Narasimhan & Vanderbilt, Phys. Rev. Lett. 69, 1564 (1992)", "DFT"⟩)]),
   ("Pd",
    [("111", ⟨0.0, 0.2, 0.0, 2.00, "Ohtani et al., Phys. Rev. B 36, 4460 (1987)", "LEED"⟩),
     ("100", ⟨-2.5, 1.2, 0.0, 2.15, "Behm et al., J. Chem. Phys. 78, 7486 (1983)", "LEED"⟩)])]

/-- Embeds `REFERENCE_2D_DATA` (materials_project.py lines 139-158). -/
def REFERENCE_2D_DATA : List (String × List (String × Ref2D)) :=
  [("C",
    [("graphene", ⟨[("c_c_bond", 1.42), ("lattice_constant", 2.46), ("layer_spacing", 3.35)],
                   "Castro Neto et al., Rev. Mod. Phys. 81, 109 (2009)", "Experiment"⟩)]),
   ("MoS2",
    [("2d", ⟨[("lattice_constant", 3.16), ("layer_thickness", 3.13), ("mo_s_bond", 2.41)],
             "Splendiani et al., Nano Lett. 10, 1271 (2010)", "Experiment"⟩)])]

/-- A reference lookup result: either a metal-surface record or a 2D-material
record (the two schemas of the reference store). -/
inductive ReferenceRecord where
  | metal (r : SurfaceRef)
  | twoD (r : Ref2D)
deriving DecidableEq

/-- Embeds `get_surface_reference` (materials_project.py lines 289-315): for a
2D face ("graphene" or "2d") consult `REFERENCE_2D_DATA`, trying the exact face
key first and then the element's "2d" key as a fallback; otherwise consult
`SURFACE_REFERENCE_DATA` for the exact (element, face) pair. -/
def get_surface_reference (element face : String) : Option ReferenceRecord :=
  if face = "graphene" ∨ face = "2d" then
    match tblGet REFERENCE_2D_DATA element with
    | none => none
    | some faces =>
      match tblGet faces face with
      | some r => some (.twoD r)
      | none =>
        match tblGet faces "2d" with
        | some r => some (.twoD r)
        | none => none
  else
    match tblGet SURFACE_REFERENCE_DATA element with
    | none => none
    | some faces => (tblGet faces face).map .metal

/-- The spec's words for the reference lookup, for comparison with the source's
`get_surface_reference`: a record is returned exactly when a curated entry
exists for the exact (element, face) pair, consulting the 2D schema for the 2D
faces and the metal-surface schema otherwise. -/
def referenceEntry (element face : String) : Option ReferenceRecord :=
  if face = "graphene" ∨ face = "2d" then
    match tblGet REFERENCE_2D_DATA element with
    | none => none
    | some faces => (tblGet faces face).map .twoD
  else
    match tblGet SURFACE_REFERENCE_DATA element with
    | none => none
    | some faces => (tblGet faces face).map .metal

/-- The combined result of `get_all_reference_data`: the surface record (if
any), the key, and the `has_surface_reference` flag. The `bulk` entry, a
passthrough of the external Materials-Project query, is outside the core. -/
structure AllRefData where
  surface : Option ReferenceRecord
  element : String
  face : String
  has_surface_reference : Bool
deriving DecidableEq

/-- Embeds `get_all_reference_data` (materials_project.py lines 318-338),
omitting the `bulk` passthrough of the external MP-API call. -/
def get_all_reference_data (element face : String) : AllRefData :=
  let surface := get_surface_reference element face
  { surface := surface, element := element, face := face,
    has_surface_reference := surface.isSome }

/-- C6 counterexample: `get_surface_reference "MoS2" "graphene"` returns a
record although no entry exists for the exact ("MoS2", "graphene") pair — the
code falls back to the element's "2d" entry for 2D faces, so "Some exactly when
an entry exists for that (element, face) pair" fails. -/
theorem C6_counterexample :
    (get_surface_reference "MoS2" "graphene").isSome = true ∧
    referenceEntry "MoS2" "graphene" = none := by
  constructor <;> rfl

/-- C6 amended: for every element and face, the lookup returns the curated
record for the exact (element, face) pair — consulting the 2D schema for the
faces "graphene" and "2d" and the metal-surface schema otherwise — except that
for a 2D face whose exact entry is absent it falls back to the element's "2d"
entry; it returns None when neither exists, in which case
`has_surface_reference` is False and the surface record is absent (None), never
zero-filled. -/
theorem C6_lookup_characterization (element face : String) :
    (∀ r, referenceEntry element face = some r →
      get_surface_reference element face = some r) ∧
    (face = "graphene" ∨ face = "2d" → referenceEntry element face = none →
      get_surface_reference element face =
        (tblGet REFERENCE_2D_DATA element).bind
          (fun faces => (tblGet faces "2d").map ReferenceRecord.twoD)) ∧
    (¬(face = "graphene" ∨ face = "2d") →
      get_surface_reference element face = referenceEntry element face) ∧
    ((get_all_reference_data element face).has_surface_reference =
      (get_surface_reference element face).isSome) ∧
    (get_surface_reference element face = none →
      (get_all_reference_data element face).surface = none) := by
  refine ⟨?_, ?_, ?_, rfl, ?_⟩
  · intro r hr
    unfold get_surface_reference
    unfold referenceEntry at hr
    by_cases h2d : face = "graphene" ∨ face = "2d"
    · rw [if_pos h2d] at hr ⊢
      rcases htbl : tblGet REFERENCE_2D_DATA element with _ | faces
      · rw [htbl] at hr; simp at hr
      · rw [htbl] at hr
        simp only [Option.map_eq_some'] at hr
        obtain ⟨r2, hface, hr2⟩ := hr
        simp [htbl, hface, hr2]
    · rw [if_neg h2d] at hr ⊢
      exact hr
  · intro h2d hnone
    unfold get_surface_reference
    unfold referenceEntry at hnone
    rw [if_pos h2d] at hnone ⊢
    rcases htbl : tblGet REFERENCE_2D_DATA element with _ | faces
    · simp [htbl]
    · rw [htbl] at hnone
      rw [Option.map_eq_none'] at hnone
      simp only [htbl, hnone]
      rcases h2 : tblGet faces "2d" with _ | r2 <;> simp [h2]
  · intro h2d
    unfold get_surface_reference referenceEntry
    rw [if_neg h2d, if_neg h2d]
  · intro hnone
    simp [get_all_reference_data, hnone]

/-- Concrete instances of C6 amended: Cu(100) has an exact metal entry that is
returned; ("MoS2", "graphene") has no exact entry and falls back to the
element's "2d" record; an unknown pair yields no surface record. -/
theorem C6_lookup_characterization_witness :
    get_surface_reference "Cu" "100" =
      some (.metal ⟨-2.1, 0.8, 0.0, 1.79,
                    "Lindgren et al., Phys. Rev. B 29, 576 (1984)", "LEED"⟩) ∧
    get_surface_reference "MoS2" "graphene" =
      (tblGet REFERENCE_2D_DATA "MoS2").bind
        (fun faces => (tblGet faces "2d").map ReferenceRecord.twoD) ∧
    (get_all_reference_data "Zz" "100").surface = none := by
  refine ⟨(C6_lookup_characterization "Cu" "100").1 _ (by rfl),
          (C6_lookup_characterization "MoS2" "graphene").2.1 (by decide) (by rfl),
          (C6_lookup_characterization "Zz" "100").2.2.2.2 (by rfl)⟩

/-- Mean of a list of rationals. -/
def qmean (l : List ℚ) : ℚ := l.sum / (l.length : ℚ)

/-- Modelled from the spec (§4.2 step 1): single-linkage merging of the sorted
normal-axis coordinates — walk the sorted list and merge a coordinate into the
current layer exactly when it lies within `tol` of the previous coordinate,
otherwise start a new layer. -/
def layerRuns (tol : ℚ) : List ℚ → ℚ → List ℚ → List (List ℚ)
  | cur, _, [] => [cur.reverse]
  | cur, last, z :: rest =>
    if z - last < tol then layerRuns tol (z :: cur) z rest
    else cur.reverse :: layerRuns tol [z] z rest

/-- Modelled from the spec (§4.2 step 1): the ComparisonEngine's layer
extraction (the comparison module, `comparison.py`, called as
`comparison.full_analysis` by agent_example.py and the CLI, is not in the
source tree). Atoms are partitioned into layers along the surface-normal (z)
axis: the coordinates are sorted and single-linkage merged under the threshold
`tol` (a chosen fraction of the nearest-neighbor spacing implied by the
lattice constant); layers are ordered from the surface (largest coordinate,
index 1) inward. -/
def clusterLayers (tol : ℚ) (zs : List ℚ) : List (List ℚ) :=
  match List.insertionSort (· ≤ ·) zs with
  | [] => []
  | z :: rest => (layerRuns tol [z] z rest).reverse

/-- Normal-axis coordinate of each atom. -/
def normalCoords (atoms : List (ℚ × ℚ × ℚ)) : List ℚ :=
  atoms.map (fun p => p.2.2)

/-- Mean normal-axis coordinate of each extracted layer, surface first. -/
def layerMeans (tol : ℚ) (atoms : List (ℚ × ℚ × ℚ)) : List ℚ :=
  (clusterLayers tol (normalCoords atoms)).map qmean

/-- Modelled from the spec (§4.2 step 2): mean interlayer spacings for the
consecutive layer pairs (1-2, 2-3, 3-4, ...), surface inward. -/
def interlayerSpacings (ms : List ℚ) : List ℚ :=
  List.zipWith (fun a b => a - b) ms ms.tail

/-- Modelled from the spec (§4.2 step 2): percent change of each relaxed
spacing against the unrelaxed (bulk-truncated) spacing,
`100 * (relaxed - bulk) / bulk`; negative values indicate contraction. -/
def percentChanges (bulk relaxed : List ℚ) : List ℚ :=
  List.zipWith (fun b r => 100 * (r - b) / b) bulk relaxed

/-- The qualitative agreement tiers of the ComparisonEngine. -/
inductive Agreement where
  | excellent
  | good
  | poor
deriving DecidableEq

/-- Severity of an agreement tier; larger is worse. -/
def Agreement.sev : Agreement → ℕ
  | .excellent => 0
  | .good => 1
  | .poor => 2

/-- The more pessimistic of two agreement tiers. -/
def worse (a b : Agreement) : Agreement := if a.sev ≤ b.sev then b else a

/-- Modelled from the spec (§4.2 step 5): reduce per-pair verdicts to one
overall label by taking the worst verdict across compared pairs; no compared
pairs means no overall label. -/
def worstOf : List Agreement → Option Agreement
  | [] => none
  | a :: rest => some (rest.foldl worse a)

/-- Modelled from the spec (§4.2 step 5): the absolute-difference tolerance
band for one spacing change against its reference value. The spec leaves the
exact thresholds to the implementer; the documented choice here is: within
1.0 percentage point of the reference is excellent, within 3.0 is good,
anything wider is poor. -/
def verdict (computed reference : ℚ) : Agreement :=
  if |computed - reference| ≤ 1 then .excellent
  else if |computed - reference| ≤ 3 then .good
  else .poor

/-- Provenance string of a reference record. -/
def refSource : ReferenceRecord → String
  | .metal r => r.source
  | .twoD r => r.source

/-- Modelled from the spec (§4.2): the structured output of the
ComparisonEngine, restricted to the fields the claims are about: reference
availability and provenance, the overall agreement tier, the computed and
reference spacing changes, and the too-thin-slab condition. Displacement and
energy metrics are independent passthroughs and are not modelled. -/
structure ComparisonResult where
  has_reference : Bool
  reference_source : Option String
  overall_agreement : Option Agreement
  computed_changes : List ℚ
  reference_changes : List ℚ
  too_few_layers : Bool
deriving DecidableEq

/-- Modelled from the spec (§4.2 steps 1-5): the ComparisonEngine. Extract
layers from both snapshots, compute the percent spacing changes against the
unrelaxed spacings, look the reference up by element and face, grade each
available pair and reduce to the worst verdict. Fewer than 2 layers in either
snapshot leaves every spacing-derived field explicitly absent (never
zero-filled) while `has_reference` still reports the lookup. -/
def compareWithReference (tol : ℚ) (unrelaxed relaxed : List (ℚ × ℚ × ℚ))
    (element face : String) : ComparisonResult :=
  let ref := get_surface_reference element face
  let uM := layerMeans tol unrelaxed
  let rM := layerMeans tol relaxed
  if uM.length < 2 ∨ rM.length < 2 then
    { has_reference := ref.isSome, reference_source := ref.map refSource,
      overall_agreement := none, computed_changes := [], reference_changes := [],
      too_few_layers := true }
  else
    let changes := percentChanges (interlayerSpacings uM) (interlayerSpacings rM)
    match ref with
    | some (.metal r) =>
      { has_reference := true, reference_source := some r.source,
        overall_agreement := worstOf (List.zipWith verdict changes
          [r.d12_change, r.d23_change, r.d34_change]),
        computed_changes := changes,
        reference_changes := [r.d12_change, r.d23_change, r.d34_change],
        too_few_layers := false }
    | some (.twoD r) =>
      { has_reference := true, reference_source := some r.source,
        overall_agreement := none, computed_changes := changes,
        reference_changes := [], too_few_layers := false }
    | none =>
      { has_reference := false, reference_source := none,
        overall_agreement := none, computed_changes := changes,
        reference_changes := [], too_few_layers := false }

/-- The d12 spacing change of a metal reference record. -/
def d12Of : ReferenceRecord → Option ℚ
  | .metal r => some r.d12_change
  | .twoD _ => none

/-- A synthetic 4-layer Cu(100) slab, two atoms per layer, bulk-truncated
interlayer spacing 1.8 Å. -/
def cuSlab100 : List (ℚ × ℚ × ℚ) :=
  [(0, 0, 0), (1.8, 1.8, 0), (0, 0, 1.8), (1.8, 1.8, 1.8),
   (0, 0, 3.6), (1.8, 1.8, 3.6), (0, 0, 5.4), (1.8, 1.8, 5.4)]

/-- The same slab after a relaxation that contracts the (1,2) spacing by
exactly 2.1 percent (1.8 Å to 1.7622 Å) and leaves the deeper layers fixed. -/
def cuSlab100Relaxed : List (ℚ × ℚ × ℚ) :=
  [(0, 0, 0), (1.8, 1.8, 0), (0, 0, 1.8), (1.8, 1.8, 1.8),
   (0, 0, 3.6), (1.8, 1.8, 3.6), (0, 0, 5.3622), (1.8, 1.8, 5.3622)]

/-- C8: the reference store holds d12_change = -2.1 percent for element "Cu"
and face "100", and for a synthetic 4-layer slab whose layer-pair (1,2)
spacing contracts by 2.1 percent the comparison engine's overall agreement
resolves to the best ("excellent") tier. -/
theorem C8_Cu100_excellent :
    (get_surface_reference "Cu" "100").bind d12Of = some (-2.1) ∧
    (compareWithReference 0.5 cuSlab100 cuSlab100Relaxed "Cu" "100").overall_agreement =
      some Agreement.excellent := by
  constructor
  · rfl
  · have href : get_surface_reference "Cu" "100" =
        some (.metal ⟨-2.1, 0.8, 0.0, 1.79,
                      "Lindgren et al., Phys. Rev. B 29, 576 (1984)", "LEED"⟩) := rfl
    norm_num [compareWithReference, href, cuSlab100, cuSlab100Relaxed, layerMeans,
      clusterLayers, normalCoords, layerRuns, qmean, interlayerSpacings, percentChanges,
      verdict, worstOf, worse, Agreement.sev, abs_le,
      List.insertionSort, List.orderedInsert]

/-- Equal sorted lists for permuted inputs: insertion sort of a permutation of
a list of rationals is the same list. -/
theorem insertionSortEqOfPerm {zs zs' : List ℚ} (h : zs.Perm zs') :
    List.insertionSort (· ≤ ·) zs = List.insertionSort (· ≤ ·) zs' :=
  List.eq_of_perm_of_sorted
    ((List.perm_insertionSort _ zs).trans (h.trans (List.perm_insertionSort _ zs').symm))
    (List.sorted_insertionSort _ zs) (List.sorted_insertionSort _ zs')

/-- C9: layer clustering is deterministic (a pure function of the coordinate
multiset) and invariant under permutation of the input atom ordering:
permuting the atoms yields identical layer assignments and identical
interlayer spacings. -/
theorem C9_clustering_order_invariant (tol : ℚ) (atoms atoms' : List (ℚ × ℚ × ℚ))
    (h : atoms.Perm atoms') :
    clusterLayers tol (normalCoords atoms) = clusterLayers tol (normalCoords atoms') ∧
    interlayerSpacings (layerMeans tol atoms) = interlayerSpacings (layerMeans tol atoms') := by
  have hz : (normalCoords atoms).Perm (normalCoords atoms') := h.map _
  have hs := insertionSortEqOfPerm hz
  constructor
  · unfold clusterLayers
    rw [hs]
  · unfold layerMeans clusterLayers
    rw [hs]

/-- Concrete instance of C9: shuffling a two-layer slab's atoms changes
neither the layers nor the spacings. -/
theorem C9_clustering_order_invariant_witness :
    clusterLayers 0.5 (normalCoords [(0, 0, 0), (1, 1, 0), (0, 0, 1.8)]) =
      clusterLayers 0.5 (normalCoords [(1, 1, 0), (0, 0, 0), (0, 0, 1.8)]) ∧
    interlayerSpacings (layerMeans 0.5 [(0, 0, 0), (1, 1, 0), (0, 0, 1.8)]) =
      interlayerSpacings (layerMeans 0.5 [(1, 1, 0), (0, 0, 0), (0, 0, 1.8)]) :=
  C9_clustering_order_invariant 0.5 _ _ (List.Perm.swap _ _ _)

/-- One collaborator or I/O call made by a stage function, recorded so that
effects outside the WorkflowState are visible in the embedding: provider
invocations, the SciLink scratch read/cleanup, directory creation, file
writes, plotting, model loading and the relaxation call. -/
inductive Event where
  | scilinkCall
  | simpleCall
  | readE (path : String)
  | rmtreeE (path : String)
  | mkdirE (path : String)
  | writeE (path : String)
  | plotE (path : String)
  | loadModelE
  | relaxCallE
deriving DecidableEq

/-- Outcome of one `_generate_with_scilink` attempt (structure_generator.py
lines 126-192): initialization failure (caught, error appended), generation
failure or missing structure file (logged only), success (with the structure
file read back and the scratch folder removed when it exists), or an
unexpected exception (caught inside the helper, error appended). -/
inductive ScilinkOutcome where
  | initFail (msg : String)
  | genFail (msg : String)
  | badFile
  | ok (file : String) (a : Atoms) (scratchDirExists : Bool)
  | exn (msg : String)

/-- The fixed outcomes of the external collaborator calls during one run: the
LLM query parser, the SciLink provider, the parametric `create_surface`
builder, the filesystem calls, the MACE model load, the relaxation itself and
the plot rendering. An `Except.error` models the call raising an exception. -/
structure Oracles where
  parse : Except String ParsedQuery := .error "unparsed"
  scilink : ScilinkOutcome := .badFile
  create_surface : Except String Atoms := .error "unavailable"
  mkdirO : Except String Unit := .ok ()
  writeUnrelaxed : Except String Unit := .ok ()
  load_model : Except String Unit := .ok ()
  relax_surfaces : Except String (Atoms × ℚ × ℚ) := .error "unavailable"
  writeRelaxed : Except String Unit := .ok ()
  plotO : Except String Unit := .ok ()

/-- Modelled from the spec: the artifact output root
(`microstack.utils.config.OUTPUT_DIR` is not in the source tree; the
repository's committed artifact folder is named `atomic_output`). -/
def OUTPUT_DIR : String := "atomic_output"

/-- Embeds `_format_miller_indices` (structure_generator.py lines 24-43):
None becomes "unknown", strings are stripped of parentheses, spaces and
commas, lists are joined. -/
def formatMillerIndices : MillerIndices → String
  | .nothing => "unknown"
  | .ofString s =>
    (((s.replace "(" "").replace ")" "").replace " " "").replace "," ""
  | .ofList l => String.join (l.map toString)

/-- The face string `_generate_simple_surface` derives from the parsed Miller
indices (structure_generator.py lines 208-212): a list is joined, a string
passes through, None stays missing. -/
def millerFace : MillerIndices → Option String
  | .nothing => none
  | .ofString s => some s
  | .ofList l => some (String.join (l.map toString))

/-- Python `x or default` for an optional string (None and "" fall back). -/
def orDefault (x : Option String) (d : String) : String :=
  match x with
  | some s => if s.isEmpty then d else s
  | none => d

/-- Embeds `_generate_with_scilink` (structure_generator.py lines 126-192):
every failure surfaces as None — the helper catches its own exceptions; the
initialization-failure and unexpected-exception paths also append to the
state's errors. On success the generated file is read back and the SciLink
scratch folder is removed when present. -/
def generateWithScilink (o : Oracles) (s : WorkflowState) :
    WorkflowState × Option Atoms × List Event :=
  match o.scilink with
  | .initFail m => (s.add_error ("SciLink not available: " ++ m), none, [])
  | .genFail _ => (s, none, [])
  | .badFile => (s, none, [])
  | .ok file a scratchDirExists =>
    (s, some a,
      [Event.readE file] ++
        (if scratchDirExists then [Event.rmtreeE (OUTPUT_DIR ++ "/scilink_structures")] else []))
  | .exn m => (s.add_error ("SciLink generation error: " ++ m), none, [])

/-- Embeds `_generate_simple_surface` (structure_generator.py lines 195-229):
a missing element or face logs and returns None without touching the state; a
`create_surface` exception is caught and appended to the errors; otherwise
the built surface is returned. -/
def generateSimpleSurface (o : Oracles) (p : ParsedQuery) (s : WorkflowState) :
    WorkflowState × Option Atoms :=
  let element := p.material_formula
  let face := millerFace p.surface_miller_indices
  if !optStrTruthy element || !optStrTruthy face then (s, none)
  else
    match o.create_surface with
    | .ok a => (s, some a)
    | .error m => (s.add_error ("Simple surface generation error: " ++ m), none)

/-- The provider-selection block of `generate_structure` (structure_generator.py
lines 67-84): when SciLink is selected (`use_scilink` flag or the SciLink task
type) try it first and fall back to the parametric builder on failure,
otherwise use the parametric builder directly. Returns the possibly-mutated
state, the structure (when a provider succeeded) and the calls made. -/
def attemptProviders (o : Oracles) (p : ParsedQuery) (s : WorkflowState) :
    WorkflowState × Option Atoms × List Event :=
  if p.use_scilink || p.task_type == "SciLink_Structure_Generation" then
    let r := generateWithScilink o s
    match r.2.1 with
    | some a => (r.1, some a, Event.scilinkCall :: r.2.2)
    | none =>
      let rb := generateSimpleSurface o p r.1
      (rb.1, rb.2, Event.scilinkCall :: (r.2.2 ++ [Event.simpleCall]))
  else
    let rb := generateSimpleSurface o p s
    (rb.1, rb.2, [Event.simpleCall])

/-- Embeds `generate_structure` (structure_generator.py lines 46-123). The
stage label is set on entry (line 57); missing parsed parameters append an
error and return; otherwise the SciLink provider is tried first when selected,
falling back to the parametric builder, and a structure obtained from either
is recorded together with its info, after which the output directory is
created and the unrelaxed artifact written with the paths recorded; an
exception from a collaborator inside the try-block (directory creation, file
write) is caught and appended to `errors` (lines 120-123). The second
component records the collaborator and I/O calls made, in order. -/
def generate_structure (o : Oracles) (s0 : WorkflowState) : WorkflowState × List Event :=
  let s := { s0 with workflow_stage := "structure_generation" }
  match s.parsed_params with
  | none => (s.add_error "Query parsing failed, no parameters extracted", [])
  | some p =>
    let step1 := attemptProviders o p s
    let s1 := step1.1
    let ev1 := step1.2.2
    match step1.2.1 with
    | none => (s1.add_error "Failed to generate structure", ev1)
    | some a =>
      let info : StructureInfo :=
        { element := orDefault p.material_formula "unknown",
          face := formatMillerIndices p.surface_miller_indices,
          formula := a.formula,
          num_atoms := a.positions.length }
      let s2 := { s1 with atoms_object := some a,
                          structure_uuid := some s1.session_id,
                          structure_info := some info }
      let output_dir := OUTPUT_DIR ++ "/" ++ info.element ++ "_" ++ info.face ++ "_"
                          ++ s2.session_id ++ "/relaxation"
      match o.mkdirO with
      | .error m =>
        (s2.add_error ("Structure generation failed: " ++ m), ev1 ++ [Event.mkdirE output_dir])
      | .ok _ =>
        let unrelaxed_file := output_dir ++ "/" ++ a.formula ++ "_unrelaxed.xyz"
        match o.writeUnrelaxed with
        | .error m =>
          (s2.add_error ("Structure generation failed: " ++ m),
           ev1 ++ [Event.mkdirE output_dir, Event.writeE unrelaxed_file])
        | .ok _ =>
          let fp := dictSet (dictSet (dictSet s2.file_paths "unrelaxed_xyz" unrelaxed_file)
              "output_dir" output_dir) "structure_dir"
              (OUTPUT_DIR ++ "/" ++ info.element ++ "_" ++ info.face ++ "_" ++ s2.session_id)
          let s3 := { s2 with file_paths := fp }
          (s3, ev1 ++ [Event.mkdirE output_dir, Event.writeE unrelaxed_file])

/-- The relax flag `relax_structure` reads: `should_relax` stays True unless
parsed parameters exist and carry `relax = False`
(structure_generator.py lines 292-294). -/
def relaxRequested (pp : Option ParsedQuery) : Bool :=
  match pp with
  | none => true
  | some p => p.relax

/-- Embeds `relax_structure` (structure_generator.py lines 272-346). The stage
label is set to "relaxation" on entry (line 283); without a structure an error
is appended and the state returned; when relaxation was not requested the
stage label is set back to "structure_generation" and the state returned
(lines 296-299); otherwise the model is loaded and the relaxation run, the
results and relaxed snapshot recorded, and the relaxed artifact and
visualization written with their paths recorded; an exception from any of
these collaborators is caught and appended to `errors` (lines 343-346). -/
def relax_structure (o : Oracles) (s0 : WorkflowState) : WorkflowState × List Event :=
  let s := { s0 with workflow_stage := "relaxation" }
  match s.atoms_object with
  | none => (s.add_error "No structure to relax", [])
  | some atoms =>
    if !relaxRequested s.parsed_params then
      ({ s with workflow_stage := "structure_generation" }, [])
    else
      match o.load_model with
      | .error m => (s.add_error ("Relaxation failed: " ++ m), [Event.loadModelE])
      | .ok _ =>
        match o.relax_surfaces with
        | .error m =>
          (s.add_error ("Relaxation failed: " ++ m), [Event.loadModelE, Event.relaxCallE])
        | .ok (relaxed, init_e, final_e) =>
          let s1 := { s with atoms_relaxed := some relaxed,
                             relaxation_results := some ⟨init_e, final_e, final_e - init_e⟩ }
          let output_dir := (dictGet s1.file_paths "output_dir").getD "."
          let relaxed_file := output_dir ++ "/" ++ atoms.formula ++ "_relaxed.xyz"
          match o.writeRelaxed with
          | .error m =>
            (s1.add_error ("Relaxation failed: " ++ m),
             [Event.loadModelE, Event.relaxCallE, Event.writeE relaxed_file])
          | .ok _ =>
            let s2 := { s1 with file_paths := dictSet s1.file_paths "relaxed_xyz" relaxed_file }
            let viz_file := output_dir ++ "/" ++ atoms.formula ++ "_relaxation.png"
            match o.plotO with
            | .error m =>
              (s2.add_error ("Relaxation failed: " ++ m),
               [Event.loadModelE, Event.relaxCallE, Event.writeE relaxed_file,
                Event.plotE viz_file])
            | .ok _ =>
              ({ s2 with file_paths := dictSet s2.file_paths "visualization" viz_file },
               [Event.loadModelE, Event.relaxCallE, Event.writeE relaxed_file,
                Event.plotE viz_file])

/-- Embeds `parse_query_node` (workflow.py lines 33-46): on success store the
parsed parameters and advance the stage to "parsed"; an exception from the
external parser is caught, one error message appended, and the state returned
otherwise unchanged. -/
def parse_query_node (o : Oracles) (s : WorkflowState) : WorkflowState :=
  match o.parse with
  | .ok p => { s with parsed_params := some p, workflow_stage := "parsed" }
  | .error e => s.add_error ("Query parsing failed: " ++ e)

/-- The workflow of `create_workflow` run on a fresh state (`run_workflow`,
workflow.py lines 85-167): parse, structure generation, relaxation and the
microscopy check in sequence, then the conditional routing decision. The
second component concatenates the stage functions' recorded calls; the third
is `route_microscopy`'s target for the final state. -/
def runPipeline (o : Oracles) (query session_id : String) :
    WorkflowState × List Event × String :=
  let s0 : WorkflowState := { session_id := session_id, query := query }
  let s1 := parse_query_node o s0
  let genR := generate_structure o s1
  let relR := relax_structure o genR.1
  let s4 := check_microscopy relR.1
  (s4, genR.2 ++ relR.2, route_microscopy s4)

/-- Pipeline order of the workflow stage labels ("init" < "parsed" <
"structure_generation" < "relaxation" < later microscopy stages). -/
def stageRank (stage : String) : ℕ :=
  if stage = "init" then 0
  else if stage = "parsed" then 1
  else if stage = "structure_generation" then 2
  else if stage = "relaxation" then 3
  else 4

/-- The SciLink helper never touches the stage label. -/
theorem generateWithScilink_stage (o : Oracles) (s : WorkflowState) :
    (generateWithScilink o s).1.workflow_stage = s.workflow_stage := by
  unfold generateWithScilink
  cases o.scilink <;> rfl

/-- The parametric-builder helper never touches the stage label. -/
theorem generateSimpleSurface_stage (o : Oracles) (p : ParsedQuery) (s : WorkflowState) :
    (generateSimpleSurface o p s).1.workflow_stage = s.workflow_stage := by
  unfold generateSimpleSurface
  dsimp only
  split
  · rfl
  · cases o.create_surface <;> rfl

/-- The provider-selection block never touches the stage label. -/
theorem attemptProviders_stage (o : Oracles) (p : ParsedQuery) (s : WorkflowState) :
    (attemptProviders o p s).1.workflow_stage = s.workflow_stage := by
  unfold attemptProviders
  dsimp only
  split
  · split
    · exact generateWithScilink_stage o s
    · exact (generateSimpleSurface_stage o p _).trans (generateWithScilink_stage o s)
  · exact generateSimpleSurface_stage o p s

/-- `generate_structure` always leaves the stage label it sets on entry. -/
theorem generate_structure_stage (o : Oracles) (s0 : WorkflowState) :
    (generate_structure o s0).1.workflow_stage = "structure_generation" := by
  unfold generate_structure
  dsimp only
  rcases hpp : s0.parsed_params with _ | p
  · rfl
  · dsimp only
    split
    · exact attemptProviders_stage o p _
    · split
      · exact attemptProviders_stage o p _
      · split
        · exact attemptProviders_stage o p _
        · exact attemptProviders_stage o p _

/-- `relax_structure` returns with the stage label "relaxation", or
"structure_generation" on the skip path. -/
theorem relax_structure_stage (o : Oracles) (s : WorkflowState) :
    (relax_structure o s).1.workflow_stage = "relaxation" ∨
    (relax_structure o s).1.workflow_stage = "structure_generation" := by
  unfold relax_structure
  dsimp only
  rcases ho : s.atoms_object with _ | atoms
  · exact Or.inl rfl
  · dsimp only
    split
    · exact Or.inr rfl
    · cases o.load_model with
      | error m => exact Or.inl rfl
      | ok u =>
        cases o.relax_surfaces with
        | error m => exact Or.inl rfl
        | ok v =>
          cases o.writeRelaxed with
          | error m => exact Or.inl rfl
          | ok u2 =>
            cases o.plotO with
            | error m => exact Or.inl rfl
            | ok u3 => exact Or.inl rfl

/-- `parse_query_node` either advances the stage to "parsed" or leaves it. -/
theorem parse_query_node_stage (o : Oracles) (s : WorkflowState) :
    (parse_query_node o s).workflow_stage = "parsed" ∨
    (parse_query_node o s).workflow_stage = s.workflow_stage := by
  unfold parse_query_node
  cases o.parse with
  | error e => exact Or.inr rfl
  | ok p => exact Or.inl rfl

/-- `check_microscopy` never touches the stage label. -/
theorem check_microscopy_stage (s : WorkflowState) :
    (check_microscopy s).workflow_stage = s.workflow_stage := by
  unfold check_microscopy
  rcases s.parsed_params with _ | p
  · rfl
  · dsimp only
    split <;> rfl

/-- C1: the workflow stage is monotone: in every run — for every collaborator
behavior, query and session — the stage after each stage function (parse,
structure generation, relaxation, microscopy check) is never an earlier stage
than before it, including on the path where relaxation is skipped because
relax is false. -/
theorem C1_stage_monotone (o : Oracles) (query session_id : String) :
    let s0 : WorkflowState := { session_id := session_id, query := query }
    let s1 := parse_query_node o s0
    let s2 := (generate_structure o s1).1
    let s3 := (relax_structure o s2).1
    let s4 := check_microscopy s3
    stageRank s0.workflow_stage ≤ stageRank s1.workflow_stage ∧
    stageRank s1.workflow_stage ≤ stageRank s2.workflow_stage ∧
    stageRank s2.workflow_stage ≤ stageRank s3.workflow_stage ∧
    stageRank s3.workflow_stage ≤ stageRank s4.workflow_stage := by
  intro s0 s1 s2 s3 s4
  have h0 : s0.workflow_stage = "init" := rfl
  have h1 := parse_query_node_stage o s0
  have h2 := generate_structure_stage o s1
  have h3 := relax_structure_stage o s2
  have h4 := check_microscopy_stage s3
  refine ⟨?_, ?_, ?_, ?_⟩
  · rcases h1 with h | h
    · rw [h0, h]; decide
    · rw [h, h0]
  · rcases h1 with h | h
    · rw [h, h2]; decide
    · rw [h, h0, h2]; decide
  · rcases h3 with h | h
    · rw [h2, h]; decide
    · rw [h2, h]
  · rw [h4]

/-- C10: query-parse atomicity: if the external parser raises,
`parse_query_node` appends exactly one error message and leaves
`parsed_params` and `workflow_stage` unchanged — the stage is not advanced to
"parsed"; on success it sets `parsed_params` and advances the stage to
"parsed". -/
theorem C10_parse_query_atomic (o : Oracles) (s : WorkflowState) :
    (∀ e, o.parse = .error e →
      (parse_query_node o s).parsed_params = s.parsed_params ∧
      (parse_query_node o s).workflow_stage = s.workflow_stage ∧
      (parse_query_node o s).errors = s.errors ++ ["Query parsing failed: " ++ e]) ∧
    (∀ p, o.parse = .ok p →
      (parse_query_node o s).parsed_params = some p ∧
      (parse_query_node o s).workflow_stage = "parsed" ∧
      (parse_query_node o s).errors = s.errors) := by
  constructor
  · intro e he
    simp [parse_query_node, he, WorkflowState.add_error]
  · intro p hp
    simp [parse_query_node, hp]

/-- Concrete instances of C10: a parser exception leaves the fresh state's
stage and appends the one message; a successful parse advances to "parsed". -/
theorem C10_parse_query_atomic_witness :
    (parse_query_node { parse := .error "boom" }
        { session_id := "s", query := "q" }).errors =
      ([] : List String) ++ ["Query parsing failed: " ++ "boom"] ∧
    (parse_query_node { parse := .error "boom" }
        { session_id := "s", query := "q" }).workflow_stage = "init" ∧
    (parse_query_node { parse := .ok { material_formula := some "Cu" } }
        { session_id := "s", query := "q" }).workflow_stage = "parsed" :=
  ⟨((C10_parse_query_atomic _ _).1 "boom" rfl).2.2,
   ((C10_parse_query_atomic { parse := .error "boom" }
      { session_id := "s", query := "q" }).1 "boom" rfl).2.1,
   ((C10_parse_query_atomic _ _).2 _ rfl).2.1⟩

/-- Under a failing SciLink provider and a failing parametric builder, the
provider-selection block (with SciLink selected) yields no structure and calls
the fallback exactly once: its call trace is exactly one SciLink attempt
followed by one parametric attempt. -/
theorem attemptProviders_both_fail (o : Oracles) (p : ParsedQuery) (s : WorkflowState)
    (hs : p.use_scilink = true)
    (h1 : ∀ f a d, o.scilink ≠ ScilinkOutcome.ok f a d)
    (h2 : ∀ a, o.create_surface ≠ .ok a) :
    (attemptProviders o p s).2.1 = none ∧
    (attemptProviders o p s).2.2 = [Event.scilinkCall, Event.simpleCall] := by
  unfold attemptProviders generateWithScilink generateSimpleSurface
  simp only [hs, Bool.true_or, if_true]
  cases hsl : o.scilink with
  | ok f a d => exact absurd hsl (by simpa using h1 f a d)
  | initFail m =>
    dsimp only
    split
    · exact ⟨rfl, rfl⟩
    · cases hcs : o.create_surface with
      | ok a => exact absurd hcs (by simpa using h2 a)
      | error m2 => exact ⟨rfl, rfl⟩
  | genFail m =>
    dsimp only
    split
    · exact ⟨rfl, rfl⟩
    · cases hcs : o.create_surface with
      | ok a => exact absurd hcs (by simpa using h2 a)
      | error m2 => exact ⟨rfl, rfl⟩
  | badFile =>
    dsimp only
    split
    · exact ⟨rfl, rfl⟩
    · cases hcs : o.create_surface with
      | ok a => exact absurd hcs (by simpa using h2 a)
      | error m2 => exact ⟨rfl, rfl⟩
  | exn m =>
    dsimp only
    split
    · exact ⟨rfl, rfl⟩
    · cases hcs : o.create_surface with
      | ok a => exact absurd hcs (by simpa using h2 a)
      | error m2 => exact ⟨rfl, rfl⟩

/-- The SciLink helper never touches `atoms_object`. -/
theorem generateWithScilink_atoms (o : Oracles) (s : WorkflowState) :
    (generateWithScilink o s).1.atoms_object = s.atoms_object := by
  unfold generateWithScilink
  cases o.scilink <;> rfl

/-- The parametric-builder helper never touches `atoms_object`. -/
theorem generateSimpleSurface_atoms (o : Oracles) (p : ParsedQuery) (s : WorkflowState) :
    (generateSimpleSurface o p s).1.atoms_object = s.atoms_object := by
  unfold generateSimpleSurface
  dsimp only
  split
  · rfl
  · cases o.create_surface <;> rfl

/-- The provider-selection block never touches `atoms_object`. -/
theorem attemptProviders_atoms (o : Oracles) (p : ParsedQuery) (s : WorkflowState) :
    (attemptProviders o p s).1.atoms_object = s.atoms_object := by
  unfold attemptProviders
  dsimp only
  split
  · split
    · exact generateWithScilink_atoms o s
    · exact (generateSimpleSurface_atoms o p _).trans (generateWithScilink_atoms o s)
  · exact generateSimpleSurface_atoms o p s

/-- On a successful parse, `parse_query_node` stores the parameters and
advances the stage. -/
theorem parse_query_node_ok (o : Oracles) (s : WorkflowState) (p : ParsedQuery)
    (hp : o.parse = .ok p) :
    parse_query_node o s = { s with parsed_params := some p, workflow_stage := "parsed" } := by
  unfold parse_query_node
  rw [hp]

/-- Without a structure, `relax_structure` only sets the stage label, appends
the one error, and performs no call at all. -/
theorem relax_structure_no_atoms (o : Oracles) (s : WorkflowState)
    (h : s.atoms_object = none) :
    relax_structure o s =
      (({ s with workflow_stage := "relaxation" }).add_error "No structure to relax", []) := by
  unfold relax_structure
  dsimp only
  rw [h]

/-- `check_microscopy` touches only the three routing flags. -/
theorem check_microscopy_preserves (s : WorkflowState) :
    (check_microscopy s).atoms_object = s.atoms_object ∧
    (check_microscopy s).errors = s.errors := by
  unfold check_microscopy
  rcases s.parsed_params with _ | p
  · exact ⟨rfl, rfl⟩
  · dsimp only
    split <;> exact ⟨rfl, rfl⟩

/-- With parsed parameters present, SciLink selected, and both providers
failing, `generate_structure` leaves `atoms_object` unchanged, calls the
fallback exactly once (trace exactly one SciLink then one parametric attempt)
and records the failure in `errors`. -/
theorem generate_structure_both_fail (o : Oracles) (s0 : WorkflowState) (p : ParsedQuery)
    (hpp : s0.parsed_params = some p) (hs : p.use_scilink = true)
    (h1 : ∀ f a d, o.scilink ≠ ScilinkOutcome.ok f a d)
    (h2 : ∀ a, o.create_surface ≠ .ok a) :
    (generate_structure o s0).1.atoms_object = s0.atoms_object ∧
    (generate_structure o s0).2 = [Event.scilinkCall, Event.simpleCall] ∧
    "Failed to generate structure" ∈ (generate_structure o s0).1.errors := by
  unfold generate_structure
  dsimp only
  rw [hpp]
  dsimp only
  rw [(attemptProviders_both_fail o p _ hs h1 h2).1,
      (attemptProviders_both_fail o p _ hs h1 h2).2]
  refine ⟨?_, rfl, ?_⟩
  · exact attemptProviders_atoms o p _
  · simp [WorkflowState.add_error]

/-- C2 counterexample: a run in which the primary (SciLink) provider and the
fallback parametric builder both fail ends with the stage label "relaxation" —
the relaxation node sets the Relaxed-stage label on entry before noticing the
missing structure — so the claimed `stage < Relaxed` is false, even though no
relaxation computation was attempted and the errors list is non-empty. -/
theorem C2_counterexample :
    (runPipeline { parse := .ok { task_type := "t", material_formula := some "Cu",
                                  surface_miller_indices := .ofList [1, 0, 0],
                                  use_scilink := true },
                   scilink := .genFail "bad",
                   create_surface := .error "builder down" }
        "make a Cu surface" "sess1").1.workflow_stage = "relaxation" ∧
    ¬ stageRank (runPipeline { parse := .ok { task_type := "t", material_formula := some "Cu",
                                              surface_miller_indices := .ofList [1, 0, 0],
                                              use_scilink := true },
                               scilink := .genFail "bad",
                               create_surface := .error "builder down" }
        "make a Cu surface" "sess1").1.workflow_stage < stageRank "relaxation" ∧
    (runPipeline { parse := .ok { task_type := "t", material_formula := some "Cu",
                                  surface_miller_indices := .ofList [1, 0, 0],
                                  use_scilink := true },
                   scilink := .genFail "bad",
                   create_surface := .error "builder down" }
        "make a Cu surface" "sess1").1.errors ≠ [] := by
  refine ⟨rfl, by decide, by decide⟩

/-- C2 amended: when the primary (SciLink) provider fails and the fallback
also fails, the run invokes the fallback exactly once (the whole call trace is
one SciLink attempt then one parametric attempt), appends to the errors list,
leaves the structure unset, and attempts no relaxation computation (no model
load, no relaxation call); the final stage label however is "relaxation"
(= Relaxed), set unconditionally on entering the relaxation node, not a stage
strictly below Relaxed. -/
theorem C2_double_failure (o : Oracles) (query session_id : String) (p : ParsedQuery)
    (hp : o.parse = .ok p) (hs : p.use_scilink = true)
    (h1 : ∀ f a d, o.scilink ≠ ScilinkOutcome.ok f a d)
    (h2 : ∀ a, o.create_surface ≠ .ok a) :
    (runPipeline o query session_id).2.1 = [Event.scilinkCall, Event.simpleCall] ∧
    (runPipeline o query session_id).1.atoms_object = none ∧
    "Failed to generate structure" ∈ (runPipeline o query session_id).1.errors ∧
    (runPipeline o query session_id).1.workflow_stage = "relaxation" := by
  unfold runPipeline
  dsimp only
  rw [parse_query_node_ok o _ p hp]
  have hg := generate_structure_both_fail o
      { session_id := session_id, query := query, parsed_params := some p,
        workflow_stage := "parsed" } p rfl hs h1 h2
  have hrel := relax_structure_no_atoms o
      (generate_structure o
        { session_id := session_id, query := query, parsed_params := some p,
          workflow_stage := "parsed" }).1 hg.1
  rw [hrel]
  have hchk := check_microscopy_preserves
      ((({ (generate_structure o
            { session_id := session_id, query := query, parsed_params := some p,
              workflow_stage := "parsed" }).1 with
          workflow_stage := "relaxation" }).add_error "No structure to relax"))
  refine ⟨?_, ?_, ?_, ?_⟩
  · rw [hg.2.1]
    simp
  · rw [hchk.1]
    exact hg.1
  · rw [hchk.2]
    simp only [WorkflowState.add_error, List.mem_append]
    exact Or.inl hg.2.2
  · rw [check_microscopy_stage]
    rfl

/-- Concrete instance of C2 amended: the double-failure run calls the
fallback exactly once, leaves no structure, records the failure and ends at
the "relaxation" stage label. -/
theorem C2_double_failure_witness :
    (runPipeline { parse := .ok { task_type := "t", material_formula := some "Cu",
                                  surface_miller_indices := .ofList [1, 0, 0],
                                  use_scilink := true },
                   scilink := .genFail "bad",
                   create_surface := .error "builder down" }
        "make a Cu surface" "sess1").2.1 = [Event.scilinkCall, Event.simpleCall] ∧
    (runPipeline { parse := .ok { task_type := "t", material_formula := some "Cu",
                                  surface_miller_indices := .ofList [1, 0, 0],
                                  use_scilink := true },
                   scilink := .genFail "bad",
                   create_surface := .error "builder down" }
        "make a Cu surface" "sess1").1.atoms_object = none ∧
    "Failed to generate structure" ∈
      (runPipeline { parse := .ok { task_type := "t", material_formula := some "Cu",
                                    surface_miller_indices := .ofList [1, 0, 0],
                                    use_scilink := true },
                     scilink := .genFail "bad",
                     create_surface := .error "builder down" }
        "make a Cu surface" "sess1").1.errors ∧
    (runPipeline { parse := .ok { task_type := "t", material_formula := some "Cu",
                                  surface_miller_indices := .ofList [1, 0, 0],
                                  use_scilink := true },
                   scilink := .genFail "bad",
                   create_surface := .error "builder down" }
        "make a Cu surface" "sess1").1.workflow_stage = "relaxation" :=
  C2_double_failure _ "make a Cu surface" "sess1"
    { task_type := "t", material_formula := some "Cu",
      surface_miller_indices := .ofList [1, 0, 0], use_scilink := true }
    rfl rfl (fun f a d h => by simp at h) (fun a h => by simp at h)

/-- The errors list of `b` extends that of `a`: the append-only discipline. -/
def errorsExtend (a b : WorkflowState) : Prop := ∃ t, b.errors = a.errors ++ t

/-- Extension is reflexive. -/
theorem errorsExtend_of_eq {a b : WorkflowState} (h : b.errors = a.errors) :
    errorsExtend a b := ⟨[], by simp [h]⟩

/-- Extension composes. -/
theorem errorsExtend_trans {a b c : WorkflowState} :
    errorsExtend a b → errorsExtend b c → errorsExtend a c := by
  rintro ⟨t1, h1⟩ ⟨t2, h2⟩
  exact ⟨t1 ++ t2, by rw [h2, h1, List.append_assoc]⟩

/-- `add_error` extends the errors list. -/
theorem errorsExtend_add_error (a : WorkflowState) (e : String) :
    errorsExtend a (a.add_error e) := ⟨[e], rfl⟩

/-- The SciLink helper only ever appends to the errors list. -/
theorem generateWithScilink_errors (o : Oracles) (s : WorkflowState) :
    errorsExtend s (generateWithScilink o s).1 := by
  unfold generateWithScilink
  cases o.scilink
  · exact errorsExtend_add_error s _
  · exact errorsExtend_of_eq rfl
  · exact errorsExtend_of_eq rfl
  · exact errorsExtend_of_eq rfl
  · exact errorsExtend_add_error s _

/-- The parametric-builder helper only ever appends to the errors list. -/
theorem generateSimpleSurface_errors (o : Oracles) (p : ParsedQuery) (s : WorkflowState) :
    errorsExtend s (generateSimpleSurface o p s).1 := by
  unfold generateSimpleSurface
  dsimp only
  split
  · exact errorsExtend_of_eq rfl
  · cases o.create_surface
    · exact errorsExtend_add_error s _
    · exact errorsExtend_of_eq rfl

/-- The provider-selection block only ever appends to the errors list. -/
theorem attemptProviders_errors (o : Oracles) (p : ParsedQuery) (s : WorkflowState) :
    errorsExtend s (attemptProviders o p s).1 := by
  unfold attemptProviders
  dsimp only
  split
  · split
    · exact generateWithScilink_errors o s
    · exact errorsExtend_trans (generateWithScilink_errors o s)
        (generateSimpleSurface_errors o p _)
  · exact generateSimpleSurface_errors o p s

/-- `generate_structure` only ever appends to the errors list. -/
theorem generate_structure_errors (o : Oracles) (s0 : WorkflowState) :
    errorsExtend s0 (generate_structure o s0).1 := by
  unfold generate_structure
  dsimp only
  rcases s0.parsed_params with _ | p
  · exact errorsExtend_add_error _ _
  · dsimp only
    have hstep : errorsExtend s0 (attemptProviders o p
        { s0 with workflow_stage := "structure_generation", parsed_params := some p }).1 :=
      errorsExtend_trans (errorsExtend_of_eq rfl) (attemptProviders_errors o p _)
    split
    · exact errorsExtend_trans hstep (errorsExtend_add_error _ _)
    · split
      · exact errorsExtend_trans hstep (errorsExtend_add_error _ _)
      · split
        · exact errorsExtend_trans hstep (errorsExtend_add_error _ _)
        · exact errorsExtend_trans hstep (errorsExtend_of_eq rfl)

/-- `relax_structure` only ever appends to the errors list. -/
theorem relax_structure_errors (o : Oracles) (s : WorkflowState) :
    errorsExtend s (relax_structure o s).1 := by
  unfold relax_structure
  dsimp only
  rcases s.atoms_object with _ | atoms
  · exact errorsExtend_add_error _ _
  · dsimp only
    split
    · exact errorsExtend_of_eq rfl
    · cases o.load_model with
      | error m => exact errorsExtend_add_error _ _
      | ok u =>
        cases o.relax_surfaces with
        | error m => exact errorsExtend_add_error _ _
        | ok v =>
          cases o.writeRelaxed with
          | error m => exact errorsExtend_add_error _ _
          | ok u2 =>
            cases o.plotO with
            | error m => exact errorsExtend_add_error _ _
            | ok u3 => exact errorsExtend_of_eq rfl

/-- `parse_query_node` only ever appends to the errors list. -/
theorem parse_query_node_errors (o : Oracles) (s : WorkflowState) :
    errorsExtend s (parse_query_node o s) := by
  unfold parse_query_node
  cases o.parse with
  | error e => exact errorsExtend_add_error _ _
  | ok p => exact errorsExtend_of_eq rfl

/-- C4: no exception escapes the orchestrator for an expected domain failure:
each stage function catches collaborator exceptions, appends a message to the
errors list and returns the WorkflowState. Errors only ever grow across every
stage function; a parser exception, a missing structure and a relaxation
failure (model load or relaxation call) each leave their message in the
returned state's errors; the embedding of every stage function is a total
function of the collaborator outcomes, so the pipeline always runs to the
routing decision with the trail inspectable. -/
theorem C4_failures_caught (o : Oracles) (s : WorkflowState) :
    errorsExtend s (parse_query_node o s) ∧
    errorsExtend s (generate_structure o s).1 ∧
    errorsExtend s (relax_structure o s).1 ∧
    (check_microscopy s).errors = s.errors ∧
    (∀ e, o.parse = .error e →
      ("Query parsing failed: " ++ e) ∈ (parse_query_node o s).errors) ∧
    (s.atoms_object = none → "No structure to relax" ∈ (relax_structure o s).1.errors) ∧
    (∀ a m, s.atoms_object = some a → relaxRequested s.parsed_params = true →
      o.load_model = .error m →
      ("Relaxation failed: " ++ m) ∈ (relax_structure o s).1.errors) ∧
    (∀ a m, s.atoms_object = some a → relaxRequested s.parsed_params = true →
      o.load_model = .ok () → o.relax_surfaces = .error m →
      ("Relaxation failed: " ++ m) ∈ (relax_structure o s).1.errors) := by
  refine ⟨parse_query_node_errors o s, generate_structure_errors o s,
          relax_structure_errors o s, (check_microscopy_preserves s).2, ?_, ?_, ?_, ?_⟩
  · intro e he
    unfold parse_query_node
    rw [he]
    simp [WorkflowState.add_error]
  · intro h
    rw [relax_structure_no_atoms o s h]
    simp [WorkflowState.add_error]
  · intro a m ha hr hl
    unfold relax_structure
    dsimp only
    rw [ha]
    dsimp only
    simp only [hr, Bool.not_true, Bool.false_eq_true, if_false]
    rw [hl]
    simp [WorkflowState.add_error]
  · intro a m ha hr hl hrs
    unfold relax_structure
    dsimp only
    rw [ha]
    dsimp only
    simp only [hr, Bool.not_true, Bool.false_eq_true, if_false]
    rw [hl, hrs]
    simp [WorkflowState.add_error]

/-- Concrete instances of C4: on a run with a failing parser the message is
recorded; with a structure present and a failing relaxation call the message
is recorded. -/
theorem C4_failures_caught_witness :
    ("Query parsing failed: " ++ "llm down") ∈
      (parse_query_node { parse := .error "llm down" }
        { session_id := "s", query := "q" }).errors ∧
    ("Relaxation failed: " ++ "mace down") ∈
      (relax_structure { load_model := .error "mace down" }
        { session_id := "s", query := "q",
          atoms_object := some { formula := "Cu16" } }).1.errors ∧
    "No structure to relax" ∈
      (relax_structure { } { session_id := "s", query := "q" }).1.errors :=
  ⟨((C4_failures_caught _ _).2.2.2.2.1) "llm down" rfl,
   ((C4_failures_caught _ _).2.2.2.2.2.2.1) { formula := "Cu16" } "mace down" rfl rfl rfl,
   ((C4_failures_caught _ _).2.2.2.2.2.1) rfl⟩

/-- The call kinds `generate_structure` is allowed to make: provider
invocations, the SciLink scratch read/cleanup, the output-directory creation
and the unrelaxed-structure write. -/
def genEventOk : Event → Bool
  | .scilinkCall | .simpleCall | .readE _ | .rmtreeE _ | .mkdirE _ | .writeE _ => true
  | _ => false

/-- The call kinds `relax_structure` is allowed to make: the model load, the
relaxation call, the relaxed-structure write and the visualization plot. -/
def relaxEventOk : Event → Bool
  | .loadModelE | .relaxCallE | .writeE _ | .plotE _ => true
  | _ => false

/-- Every call the SciLink helper makes is of an allowed kind. -/
theorem generateWithScilink_trace_ok (o : Oracles) (s : WorkflowState) :
    ((generateWithScilink o s).2.2).all genEventOk = true := by
  unfold generateWithScilink
  rcases o.scilink with m | m | _ | ⟨f, a, d⟩ | m
  · rfl
  · rfl
  · rfl
  · dsimp only
    split <;> rfl
  · rfl

/-- Every call the provider-selection block makes is of an allowed kind. -/
theorem attemptProviders_trace_ok (o : Oracles) (p : ParsedQuery) (s : WorkflowState) :
    ((attemptProviders o p s).2.2).all genEventOk = true := by
  unfold attemptProviders
  dsimp only
  split
  · split
    · have h := generateWithScilink_trace_ok o s
      simp only [List.all_cons, h, Bool.and_true]
      rfl
    · have h := generateWithScilink_trace_ok o s
      simp only [List.all_cons, List.all_append, List.all_nil, h, Bool.and_true,
        Bool.true_and]
      rfl
  · rfl

/-- Every call `generate_structure` makes is of an allowed kind. -/
theorem generate_structure_trace_ok (o : Oracles) (s0 : WorkflowState) :
    ((generate_structure o s0).2).all genEventOk = true := by
  unfold generate_structure
  dsimp only
  rcases s0.parsed_params with _ | p
  · rfl
  · dsimp only
    have h := attemptProviders_trace_ok o p
      { s0 with workflow_stage := "structure_generation", parsed_params := some p }
    split
    · exact h
    · split
      · simp only [List.all_append, List.all_cons, List.all_nil, h, Bool.and_true,
          Bool.true_and]
        rfl
      · split
        · simp only [List.all_append, List.all_cons, List.all_nil, h, Bool.and_true,
            Bool.true_and]
          rfl
        · simp only [List.all_append, List.all_cons, List.all_nil, h, Bool.and_true,
            Bool.true_and]
          rfl

/-- Every call `relax_structure` makes is of an allowed kind. -/
theorem relax_structure_trace_ok (o : Oracles) (s : WorkflowState) :
    ((relax_structure o s).2).all relaxEventOk = true := by
  unfold relax_structure
  dsimp only
  rcases s.atoms_object with _ | atoms
  · rfl
  · dsimp only
    split
    · rfl
    · cases o.load_model with
      | error m => rfl
      | ok u =>
        cases o.relax_surfaces with
        | error m => rfl
        | ok v =>
          cases o.writeRelaxed with
          | error m => rfl
          | ok u2 =>
            cases o.plotO with
            | error m => rfl
            | ok u3 => rfl

/-- C7 counterexample: the stage functions do perform I/O themselves — on a
run with a working parametric provider, `generate_structure` itself writes the
unrelaxed-structure artifact (a file-write call appears in its own call
trace), rather than the caller doing it with artifacts read back from the
WorkflowState. -/
theorem C7_counterexample :
    Event.writeE "atomic_output/Cu_100_sess/relaxation/Cu16_unrelaxed.xyz" ∈
      (runPipeline { parse := .ok { material_formula := some "Cu",
                                    surface_miller_indices := .ofList [1, 0, 0] },
                     create_surface := .ok { formula := "Cu16" } }
        "make a Cu(100) surface" "sess").2.1 := by
  decide

/-- C7 amended: the stage functions' only side effects beyond mutating the
passed WorkflowState are the artifact and collaborator calls they make
themselves: every call `generate_structure` makes is a provider invocation,
the SciLink scratch read/cleanup, the output-directory creation or the
unrelaxed-structure write, and every call `relax_structure` makes is the model
load, the relaxation call, the relaxed-structure write or the visualization
plot; the artifact paths are recorded in `file_paths` for downstream
reporting, and parsing and the microscopy check make no such calls at all
(their embeddings return no call trace). -/
theorem C7_effect_characterization (o : Oracles) (s : WorkflowState) :
    (∀ e ∈ (generate_structure o s).2, genEventOk e = true) ∧
    (∀ e ∈ (relax_structure o s).2, relaxEventOk e = true) := by
  constructor
  · intro e he
    exact List.all_eq_true.mp (generate_structure_trace_ok o s) e he
  · intro e he
    exact List.all_eq_true.mp (relax_structure_trace_ok o s) e he

/-- Concrete instance of C7 amended: in the successful-generation run, the
first recorded call (the parametric-provider invocation) is of an allowed
kind. -/
theorem C7_effect_characterization_witness :
    genEventOk Event.simpleCall = true :=
  (C7_effect_characterization
    { parse := .ok { material_formula := some "Cu",
                     surface_miller_indices := .ofList [1, 0, 0] },
      create_surface := .ok { formula := "Cu16" } }
    (parse_query_node
      { parse := .ok { material_formula := some "Cu",
                       surface_miller_indices := .ofList [1, 0, 0] },
        create_surface := .ok { formula := "Cu16" } }
      { session_id := "sess", query := "make a Cu(100) surface" })).1
    Event.simpleCall (by decide)
